import Mathlib

/-!
# oneflow: the write-blob-by-callback instruction type and the cpu blob instruction types

A shallow embedding of

* `oneflow/core/vm/access_blob_by_callback.cpp` (class `vm::WriteBlobByCallback`), and
* `oneflow/core/eager/cpu_blob_instruction_type.cpp`
  (classes `eager::CpuLazyReferenceInstructionType` and
  `eager::CpuWriteBlobByCallbackInstructionType`).

Pointers are addresses (`Nat`), a possibly empty `std::shared_ptr` is an `Option`,
a `std::function` is an `Option` too (empty, or a target that returns or throws),
a failed `CHECK` is a fatal outcome that keeps the state reached at the abort, an
exception that leaves a call is an outcome of its own, and every call returns, next
to its final state, the list of the source statements it executed.
-/

namespace oneflow

/-! ## Data model -/

/-- Modelled from the spec: the stream types named by the two source files
(`vm::HostStreamType` of `host_stream_type.h`, `vm::CpuStreamType` of
`cpu_stream_type.h`); the headers are not part of the sources read here. Each is
the tag of one stream category: host and CPU. -/
inductive StreamType
  | HostStreamType
  | CpuStreamType
  deriving DecidableEq, Repr

/-- Modelled from the spec: `Blob` of `oneflow/core/register/blob.h`, "a memory
region holding tensor data"; only its contents matter here. -/
structure Blob where
  bytes : List Nat
  deriving DecidableEq, Repr

/-- The memory that `Blob*` pointers point into: the blob at address `a` is
`mem[a]?`. This is the state a callback can change through an accessor. -/
abbrev Memory := List Blob

/-- Modelled from the spec: `OfBlob` of `oneflow/core/register/ofblob.h`, the host
accessor built by `OfBlob(DeviceCtx*, Blob*)`: it keeps the two pointers it was
constructed from. -/
structure OfBlob where
  device_ctx : Nat
  blob : Nat
  deriving DecidableEq, Repr

/-- The value of `reinterpret_cast<uint64_t>(&ofblob)`: the address of an accessor,
identified with the accessor it designates while that accessor is alive. -/
structure OfBlobHandle where
  pointee : OfBlob
  deriving DecidableEq, Repr

/-- Modelled from the spec: `eager::EagerBlobObject` of `eager_blob_object.h`;
`mut_blob()` yields the `Blob*` of the buffer it owns. -/
structure EagerBlobObject where
  mut_blob : Nat
  deriving DecidableEq, Repr

/-- How a call of the target of a callback ends: it returns, or it throws an
exception; either way `memory` is the memory as the target left it. -/
inductive CallbackResult
  | returned (memory : Memory)
  | threw (memory : Memory)
  deriving DecidableEq, Repr

/-- The memory as the target of a callback left it. -/
def CallbackResult.memory : CallbackResult → Memory
  | .returned memory => memory
  | .threw memory => memory

/-- Modelled from the spec: `WriteBlobArgCbPhyInstrOperand` of
`access_blob_arg_cb_phy_instr_operand.h`, the concrete operand carrying a buffer
reference and a callback `std::function<void(uint64_t)>`. A `std::function` is
empty (`none`) or holds a target; the target receives the handle, acts on the
memory, and returns or throws. -/
structure WriteBlobArgCbPhyInstrOperand where
  eager_blob_object : EagerBlobObject
  callback : Option (OfBlobHandle → Memory → CallbackResult)

/-- What a call through a `std::function` makes of the memory: nothing when the
function is empty (no target runs), and what its target makes of it otherwise. -/
def callback_effect (callback : Option (OfBlobHandle → Memory → CallbackResult))
    (handle : OfBlobHandle) (mem : Memory) : Memory :=
  match callback with
  | none => mem
  | some target => (target handle mem).memory

/-- The type-erased operand `PhyInstrOperand`: either the write-blob-by-callback
shape or any other concrete subclass (identified by a tag). -/
inductive PhyInstrOperand
  | WriteBlobArgCb (operand : WriteBlobArgCbPhyInstrOperand)
  | other (tag : Nat)

/-- The message of an instruction: `phy_instr_operand()` is a
`std::shared_ptr<PhyInstrOperand>`, empty or pointing to an operand. -/
structure InstructionMsg where
  phy_instr_operand : Option PhyInstrOperand

/-- The stream of an instruction: `device_ctx().get()` is the `DeviceCtx*` it owns. -/
structure Stream where
  device_ctx : Nat
  deriving DecidableEq, Repr

/-- The runtime unit handed to `Infer` and `Compute`. -/
structure Instruction where
  instr_msg : InstructionMsg
  stream : Stream

/-- The statements of `WriteBlobByCallback::Compute` that can be observed, in
source order (lines 37 to 43 of `access_blob_by_callback.cpp`). -/
inductive Event
  /-- `CHECK(static_cast<bool>(phy_instr_operand))`, line 37 -/
  | CHECK_operand
  /-- `dynamic_cast<const WriteBlobArgCbPhyInstrOperand*>(...)`, line 38 -/
  | dynamic_cast
  /-- `CHECK_NOTNULL(ptr)`, line 39 -/
  | CHECK_NOTNULL
  /-- `instruction->stream().device_ctx().get()`, line 40 -/
  | device_ctx_get
  /-- `OfBlob ofblob(device_ctx, ...)`, line 41 -/
  | OfBlob_ctor (ofblob : OfBlob)
  /-- The target of `ptr->callback()` is run on
  `reinterpret_cast<uint64_t>(&ofblob)`, line 42 -/
  | callback_call (handle : OfBlobHandle)
  /-- The local `ofblob` is destroyed: at the end of its scope, line 43, or when an
  exception unwinds through `Compute` -/
  | OfBlob_dtor (ofblob : OfBlob)
  deriving DecidableEq, Repr

/-- The exceptions that can leave `Compute` at line 42, which has no test of the
callable and no handler: `std::bad_function_call`, thrown by the call through an
empty `std::function`, and whatever the target of the callback throws. -/
inductive Exception
  | bad_function_call
  | thrown_by_callback
  deriving DecidableEq, Repr

/-- How a call ended: it returned, a `CHECK` aborted the process, or an exception
left it. -/
inductive Status
  | completed
  | fatal (failed : Event)
  | exception (thrown : Exception)
  deriving DecidableEq, Repr

/-- What a call of `Infer` or `Compute` leaves behind: how it ended, the statements
executed, the instruction it was given (a mutable `Instruction*`) and the world. -/
structure Outcome (World : Type) where
  status : Status
  trace : List Event
  instruction : Instruction
  world : World

/-- Is the event an invocation of the callback? -/
def Event.isCallbackCall : Event → Bool
  | .callback_call _ => true
  | _ => false

/-- Is the event the construction of an accessor? -/
def Event.isOfBlobCtor : Event → Bool
  | .OfBlob_ctor _ => true
  | _ => false

/-! ## `vm::WriteBlobByCallback` -/

/-- The C++ `dynamic_cast<const WriteBlobArgCbPhyInstrOperand*>`: the operand when it
has that dynamic type, a null pointer otherwise. -/
def dynamic_cast_WriteBlobArgCbPhyInstrOperand :
    PhyInstrOperand → Option WriteBlobArgCbPhyInstrOperand
  | .WriteBlobArgCb operand => some operand
  | .other _ => none

/-- The cast `reinterpret_cast<uint64_t>(&ofblob)`. -/
def reinterpret_cast_uint64 (ofblob : OfBlob) : OfBlobHandle := ⟨ofblob⟩

/-- The alias `using stream_type = vm::HostStreamType;` (line 32). -/
def WriteBlobByCallback.stream_type : StreamType := .HostStreamType

/-- The member `WriteBlobByCallback::Compute` (lines 34 to 43). -/
def WriteBlobByCallback.Compute (instruction : Instruction) (mem : Memory) :
    Outcome Memory :=
  -- const InstructionMsg& instr_msg = instruction->instr_msg();
  let instr_msg := instruction.instr_msg
  -- const auto& phy_instr_operand = instr_msg.phy_instr_operand();
  let phy_instr_operand := instr_msg.phy_instr_operand
  -- CHECK(static_cast<bool>(phy_instr_operand));
  match phy_instr_operand with
  | none =>
    { status := .fatal .CHECK_operand
      trace := [.CHECK_operand]
      instruction := instruction
      world := mem }
  | some operand =>
    -- const auto* ptr = dynamic_cast<const WriteBlobArgCbPhyInstrOperand*>(...);
    -- CHECK_NOTNULL(ptr);
    match dynamic_cast_WriteBlobArgCbPhyInstrOperand operand with
    | none =>
      { status := .fatal .CHECK_NOTNULL
        trace := [.CHECK_operand, .dynamic_cast, .CHECK_NOTNULL]
        instruction := instruction
        world := mem }
    | some ptr =>
      -- DeviceCtx* device_ctx = instruction->stream().device_ctx().get();
      let device_ctx := instruction.stream.device_ctx
      -- OfBlob ofblob(device_ctx, ptr->eager_blob_object()->mut_blob());
      let ofblob : OfBlob := ⟨device_ctx, ptr.eager_blob_object.mut_blob⟩
      -- ptr->callback()(reinterpret_cast<uint64_t>(&ofblob));
      let handle := reinterpret_cast_uint64 ofblob
      match ptr.callback with
      | none =>
        -- the call through an empty std::function throws; no target is run
        { status := .exception .bad_function_call
          trace := [.CHECK_operand, .dynamic_cast, .CHECK_NOTNULL, .device_ctx_get,
                    .OfBlob_ctor ofblob, .OfBlob_dtor ofblob]
          instruction := instruction
          world := mem }
      | some target =>
        match target handle mem with
        | .returned mem1 =>
          { status := .completed
            trace := [.CHECK_operand, .dynamic_cast, .CHECK_NOTNULL, .device_ctx_get,
                      .OfBlob_ctor ofblob, .callback_call handle, .OfBlob_dtor ofblob]
            instruction := instruction
            world := mem1 }
        | .threw mem1 =>
          -- the exception of the target is not caught here
          { status := .exception .thrown_by_callback
            trace := [.CHECK_operand, .dynamic_cast, .CHECK_NOTNULL, .device_ctx_get,
                      .OfBlob_ctor ofblob, .callback_call handle, .OfBlob_dtor ofblob]
            instruction := instruction
            world := mem1 }

/-- The member `WriteBlobByCallback::Infer` (lines 45 and 46): an empty body. -/
def WriteBlobByCallback.Infer (instruction : Instruction) (mem : Memory) :
    Outcome Memory :=
  { status := .completed, trace := [], instruction := instruction, world := mem }

/-! ## `eager::CpuLazyReferenceInstructionType`, `eager::CpuWriteBlobByCallbackInstructionType` -/

/-- The virtual interface `vm::InstructionType`: the two member functions a
concrete instruction type provides. `World` is the state its calls act on. -/
structure InstructionType (World : Type) where
  Compute : Instruction → World → Outcome World
  Infer : Instruction → World → Outcome World

/-- The virtual member functions that the body of a class declares itself
(`none`: the body has no declaration of that member). -/
structure ClassBody (World : Type) where
  Compute : Option (Instruction → World → Outcome World)
  Infer : Option (Instruction → World → Outcome World)

/-- C++ public inheritance `class D : public B { body }`: a virtual member declared
in the body overrides the one of the base; any other is the one of the base. -/
def derived_class {World : Type} (base : InstructionType World) (body : ClassBody World) :
    InstructionType World :=
  { Compute := body.Compute.getD base.Compute
    Infer := body.Infer.getD base.Infer }

/-- The class `CpuLazyReferenceInstructionType` (lines 21 to 27 of
`cpu_blob_instruction_type.cpp`), derived from `LazyReferenceInstructionType`
(declared in `blob_instruction_type.h`, taken as a parameter). Its body declares a
defaulted constructor, a defaulted destructor and `stream_type` only. -/
def CpuLazyReferenceInstructionType {World : Type}
    (LazyReferenceInstructionType : InstructionType World) : InstructionType World :=
  derived_class LazyReferenceInstructionType { Compute := none, Infer := none }

/-- The alias `using stream_type = vm::CpuStreamType;` (line 26). -/
def CpuLazyReferenceInstructionType.stream_type : StreamType := .CpuStreamType

/-- The class `CpuWriteBlobByCallbackInstructionType` (lines 31 to 37), derived
from `WriteBlobByCallbackInstructionType` (declared in `blob_instruction_type.h`,
taken as a parameter). Its body declares a defaulted constructor, a defaulted
destructor and `stream_type` only. -/
def CpuWriteBlobByCallbackInstructionType {World : Type}
    (WriteBlobByCallbackInstructionType : InstructionType World) : InstructionType World :=
  derived_class WriteBlobByCallbackInstructionType { Compute := none, Infer := none }

/-- The alias `using stream_type = vm::CpuStreamType;` (line 36). -/
def CpuWriteBlobByCallbackInstructionType.stream_type : StreamType := .CpuStreamType

/-! ## The registrations made by the two files -/

/-- The classes `T` that the two files pass to `vm::RegisterInstructionType<T>`. -/
inductive InstructionTypeClass
  | WriteBlobByCallback
  | CpuLazyReferenceInstructionType
  | CpuWriteBlobByCallbackInstructionType
  deriving DecidableEq, Repr

/-- The member type `T::stream_type` of each registered class. -/
def InstructionTypeClass.stream_type : InstructionTypeClass → StreamType
  | .WriteBlobByCallback => WriteBlobByCallback.stream_type
  | .CpuLazyReferenceInstructionType => CpuLazyReferenceInstructionType.stream_type
  | .CpuWriteBlobByCallbackInstructionType => CpuWriteBlobByCallbackInstructionType.stream_type

/-- The three `COMMAND(vm::RegisterInstructionType<T>(name))` statements:
`access_blob_by_callback.cpp` line 48, `cpu_blob_instruction_type.cpp` lines 29
and 38 to 39. Each pairs the registered name with the class `T`. -/
def COMMANDS : List (String × InstructionTypeClass) :=
  [ ("WriteBlobByCallback", .WriteBlobByCallback),
    ("cpu.LazyReference", .CpuLazyReferenceInstructionType),
    ("cpu.WriteBlobByCallback", .CpuWriteBlobByCallbackInstructionType) ]

/-- The stream type under which a name is catalogued by `COMMANDS`, if any. -/
def COMMANDS.stream_type_of (name : String) : Option StreamType :=
  (COMMANDS.find? (fun c => c.1 == name)).map (fun c => c.2.stream_type)

/-! ## The instruction-type registry -/

/-- Modelled from the spec: the singleton behaviour handed to `register`, which is
not part of the sources read here (`instruction_type.h`). The spec says a behaviour
"declares which Stream Category it requires"; `instance_id` is the identity of the
singleton instance. -/
structure Behavior where
  required_stream_category : StreamType
  instance_id : Nat
  deriving DecidableEq, Repr

/-- Modelled from the spec: `InstructionTypeDescriptor`,
`{ name, required_stream_category, singleton_behavior }`, created once at
registration time; the registry code itself is missing from the sources. -/
structure InstructionTypeDescriptor where
  name : String
  required_stream_category : StreamType
  singleton_behavior : Behavior
  deriving DecidableEq, Repr

/-- Modelled from the spec: the instruction-type registry, a "catalog mapping a
unique string key to a singleton Instruction Type instance"; the registry code is
missing from the sources. The descriptors are kept in registration order. -/
abbrev Registry := List InstructionTypeDescriptor

/-- The names registered in a registry. -/
def Registry.names (r : Registry) : List String := r.map (fun d => d.name)

/-- Modelled from the spec: what a call of `register` leaves behind; the registry
code is missing from the sources. `fatal` says whether the call aborted, and
`registry` is the registry at the return or at the abort. -/
structure RegisterOutcome where
  fatal : Bool
  registry : Registry
  deriving DecidableEq, Repr

/-- Modelled from the spec: the result of `lookup`, a descriptor or a fatal
failure; the registry code is missing from the sources. -/
inductive LookupOutcome
  | found (descriptor : InstructionTypeDescriptor)
  | fatal
  deriving DecidableEq, Repr

/-- Modelled from the spec: `register(name, behavior)` of the registry, whose code
is missing from the sources: it "fails (fatal, aborts startup) if `name` already
exists", and then "first registration remains active"; otherwise it adds the
descriptor of the behaviour under the name. -/
def register (r : Registry) (name : String) (behavior : Behavior) : RegisterOutcome :=
  if name ∈ r.names then
    { fatal := true, registry := r }
  else
    { fatal := false
      registry := r ++ [{ name := name
                          required_stream_category := behavior.required_stream_category
                          singleton_behavior := behavior }] }

/-- Modelled from the spec: `lookup(name) -> InstructionTypeDescriptor` of the
registry, whose code is missing from the sources: it "fails (fatal) if `name` is
absent". -/
def lookup (r : Registry) (name : String) : LookupOutcome :=
  match r.find? (fun d => d.name == name) with
  | some d => .found d
  | none => .fatal

/-- Modelled from the spec: the singleton instance of a registered class, with the
stream category of its `stream_type`; the template producing it is missing from
the sources. -/
def InstructionTypeClass.singleton (T : InstructionTypeClass) : Behavior :=
  { required_stream_category := T.stream_type
    instance_id := match T with
      | .WriteBlobByCallback => 0
      | .CpuLazyReferenceInstructionType => 1
      | .CpuWriteBlobByCallbackInstructionType => 2 }

/-- Modelled from the spec: `vm::RegisterInstructionType<T>(name)`, whose template
is missing from the sources: it registers the singleton of `T` under `name`. -/
def RegisterInstructionType (T : InstructionTypeClass) (name : String) (r : Registry) :
    RegisterOutcome :=
  register r name T.singleton

/-- Modelled from the spec: process start, where the registrations are made one
after the other; a registration that fails is fatal, so none is made after it. The
code running the registrations is missing from the sources. -/
def register_all (r : Registry) : List (String × Behavior) → RegisterOutcome
  | [] => { fatal := false, registry := r }
  | call :: calls =>
    if (register r call.1 call.2).fatal then
      register r call.1 call.2
    else
      register_all (register r call.1 call.2).registry calls

/-- Modelled from the spec: the registry after the three `COMMANDS` have run at
process start, from the empty registry; the code running them is missing from the
sources. -/
def static_initialization : RegisterOutcome :=
  register_all [] (COMMANDS.map (fun c => (c.1, c.2.singleton)))

/-! ## Sample inputs -/

/-- A callback target that appends the byte `b` to the blob its handle refers to,
and returns. -/
def append_byte (b : Nat) : OfBlobHandle → Memory → CallbackResult := fun handle mem =>
  match mem[handle.pointee.blob]? with
  | some blob => .returned (mem.set handle.pointee.blob { bytes := blob.bytes ++ [b] })
  | none => .returned mem

/-- A callback target that only reads: it leaves the memory as it is, and returns. -/
def read_only : OfBlobHandle → Memory → CallbackResult := fun _ mem => .returned mem

/-- A callback target that throws without touching the memory. -/
def throwing : OfBlobHandle → Memory → CallbackResult := fun _ mem => .threw mem

/-- A memory of two blobs, at addresses 0 and 1. -/
def sample_memory : Memory := [{ bytes := [1, 2] }, { bytes := [3] }]

/-- An operand of the write-blob-by-callback shape: blob 1, appending the byte 9. -/
def sample_operand : WriteBlobArgCbPhyInstrOperand :=
  { eager_blob_object := { mut_blob := 1 }, callback := some (append_byte 9) }

/-- An instruction carrying `sample_operand`, on a stream with device context 42. -/
def sample_instruction : Instruction :=
  { instr_msg := { phy_instr_operand := some (.WriteBlobArgCb sample_operand) }
    stream := { device_ctx := 42 } }

/-- An operand of the write-blob-by-callback shape whose callback only reads. -/
def reading_operand : WriteBlobArgCbPhyInstrOperand :=
  { eager_blob_object := { mut_blob := 0 }, callback := some read_only }

/-- An instruction carrying `reading_operand`, on a stream with device context 7. -/
def reading_instruction : Instruction :=
  { instr_msg := { phy_instr_operand := some (.WriteBlobArgCb reading_operand) }
    stream := { device_ctx := 7 } }

/-- An operand of the write-blob-by-callback shape whose `std::function` is empty. -/
def uncallable_operand : WriteBlobArgCbPhyInstrOperand :=
  { eager_blob_object := { mut_blob := 1 }, callback := none }

/-- An instruction carrying `uncallable_operand`, on a stream with device context 42. -/
def uncallable_instruction : Instruction :=
  { instr_msg := { phy_instr_operand := some (.WriteBlobArgCb uncallable_operand) }
    stream := { device_ctx := 42 } }

/-- An operand of the write-blob-by-callback shape whose callback throws. -/
def throwing_operand : WriteBlobArgCbPhyInstrOperand :=
  { eager_blob_object := { mut_blob := 1 }, callback := some throwing }

/-- An instruction carrying `throwing_operand`, on a stream with device context 42. -/
def throwing_instruction : Instruction :=
  { instr_msg := { phy_instr_operand := some (.WriteBlobArgCb throwing_operand) }
    stream := { device_ctx := 42 } }

/-- An instruction whose operand pointer is empty. -/
def empty_instruction : Instruction :=
  { instr_msg := { phy_instr_operand := none }, stream := { device_ctx := 42 } }

/-- An instruction whose operand is of another concrete shape. -/
def misshaped_instruction : Instruction :=
  { instr_msg := { phy_instr_operand := some (.other 5) }, stream := { device_ctx := 42 } }

/-- A registry holding one registration, of the name "host.Echo". -/
def echo_registry : Registry :=
  (register [] "host.Echo" { required_stream_category := .HostStreamType, instance_id := 10 }).registry

/-! ## Theorems: `WriteBlobByCallback` -/

/-- C1, as stated, fails: on `uncallable_instruction`, whose operand is present and
of the write-blob-by-callback shape but whose `std::function` is empty, `Compute`
does not complete (it leaves by `std::bad_function_call`) and invokes nothing; on
`throwing_instruction`, whose callback throws, `Compute` does not complete either.
So it is false that every right-shaped operand makes `Compute` complete. -/
theorem Compute_invokes_callback_once_counterexample :
    (uncallable_instruction.instr_msg.phy_instr_operand =
        some (.WriteBlobArgCb uncallable_operand) ∧
     (WriteBlobByCallback.Compute uncallable_instruction sample_memory).status =
        .exception .bad_function_call ∧
     (WriteBlobByCallback.Compute uncallable_instruction sample_memory).trace.filter
        Event.isCallbackCall = []) ∧
    (throwing_instruction.instr_msg.phy_instr_operand =
        some (.WriteBlobArgCb throwing_operand) ∧
     (WriteBlobByCallback.Compute throwing_instruction sample_memory).status =
        .exception .thrown_by_callback) ∧
    ¬ (∀ (instruction : Instruction) (mem : Memory) (operand : WriteBlobArgCbPhyInstrOperand),
        instruction.instr_msg.phy_instr_operand = some (.WriteBlobArgCb operand) →
        (WriteBlobByCallback.Compute instruction mem).status = .completed ∧
        ((WriteBlobByCallback.Compute instruction mem).trace.filter
          Event.isCallbackCall).length = 1) := by
  refine ⟨⟨rfl, rfl, rfl⟩, ⟨rfl, rfl⟩, ?_⟩
  intro hall
  have hst := (hall uncallable_instruction sample_memory uncallable_operand rfl).1
  exact Status.noConfusion hst

/-- C1 (amended): on an instruction whose operand is present, of the
write-blob-by-callback shape, and whose callback is a non-empty callable, the trace
of `Compute` holds exactly one callback invocation, its argument is the handle of
the accessor built from the device context of the instruction's stream and the blob
of the operand's eager blob object, exactly one accessor is constructed, and the
final memory is what that one invocation made of the initial memory; when the
invocation returns normally, `Compute` completes. -/
theorem Compute_invokes_callback_once (instruction : Instruction) (mem : Memory)
    (operand : WriteBlobArgCbPhyInstrOperand)
    (target : OfBlobHandle → Memory → CallbackResult)
    (h : instruction.instr_msg.phy_instr_operand = some (.WriteBlobArgCb operand))
    (hcallable : operand.callback = some target) :
    (WriteBlobByCallback.Compute instruction mem).trace.filter Event.isCallbackCall =
      [.callback_call
        ⟨⟨instruction.stream.device_ctx, operand.eager_blob_object.mut_blob⟩⟩] ∧
    (WriteBlobByCallback.Compute instruction mem).trace.filter Event.isOfBlobCtor =
      [.OfBlob_ctor ⟨instruction.stream.device_ctx, operand.eager_blob_object.mut_blob⟩] ∧
    (WriteBlobByCallback.Compute instruction mem).world =
      (target ⟨⟨instruction.stream.device_ctx, operand.eager_blob_object.mut_blob⟩⟩
        mem).memory ∧
    (∀ mem1 : Memory,
      target ⟨⟨instruction.stream.device_ctx, operand.eager_blob_object.mut_blob⟩⟩ mem =
        .returned mem1 →
      (WriteBlobByCallback.Compute instruction mem).status = .completed ∧
      (WriteBlobByCallback.Compute instruction mem).world = mem1) := by
  obtain ⟨⟨op⟩, stream⟩ := instruction
  obtain ⟨ebo, cb⟩ := operand
  simp only at h hcallable
  subst h
  subst hcallable
  simp only [WriteBlobByCallback.Compute, dynamic_cast_WriteBlobArgCbPhyInstrOperand,
    reinterpret_cast_uint64]
  cases hres : target ⟨⟨stream.device_ctx, ebo.mut_blob⟩⟩ mem with
  | returned m =>
    refine ⟨rfl, rfl, rfl, ?_⟩
    intro mem1 heq
    cases heq
    exact ⟨rfl, rfl⟩
  | threw m =>
    refine ⟨rfl, rfl, rfl, ?_⟩
    intro mem1 heq
    exact CallbackResult.noConfusion heq

/-- Witness of C1 (amended) on `sample_instruction`: one invocation with the handle
of the accessor of device context 42 and blob 1; it returns, `Compute` completes,
and blob 1 holds one more byte. -/
theorem Compute_invokes_callback_once_witness :
    (sample_instruction.instr_msg.phy_instr_operand =
        some (.WriteBlobArgCb sample_operand) ∧
     sample_operand.callback = some (append_byte 9)) ∧
    ((WriteBlobByCallback.Compute sample_instruction sample_memory).trace.filter
        Event.isCallbackCall = [.callback_call ⟨⟨42, 1⟩⟩] ∧
     (WriteBlobByCallback.Compute sample_instruction sample_memory).trace.filter
        Event.isOfBlobCtor = [.OfBlob_ctor ⟨42, 1⟩] ∧
     (WriteBlobByCallback.Compute sample_instruction sample_memory).world =
        (append_byte 9 ⟨⟨42, 1⟩⟩ sample_memory).memory ∧
     (∀ mem1 : Memory, append_byte 9 ⟨⟨42, 1⟩⟩ sample_memory = .returned mem1 →
        (WriteBlobByCallback.Compute sample_instruction sample_memory).status = .completed ∧
        (WriteBlobByCallback.Compute sample_instruction sample_memory).world = mem1)) ∧
    append_byte 9 ⟨⟨42, 1⟩⟩ sample_memory =
      .returned [{ bytes := [1, 2] }, { bytes := [3, 9] }] ∧
    (WriteBlobByCallback.Compute sample_instruction sample_memory).status = .completed ∧
    (WriteBlobByCallback.Compute sample_instruction sample_memory).world =
      [{ bytes := [1, 2] }, { bytes := [3, 9] }] :=
  ⟨⟨rfl, rfl⟩,
    Compute_invokes_callback_once sample_instruction sample_memory sample_operand
      (append_byte 9) rfl rfl,
    by decide, by decide, by decide⟩

/-- C2: on an instruction whose operand pointer is empty, `Compute` fails fatally at
the presence check, which is the only statement executed: no downcast, no read of the
device context, no accessor and no callback invocation; instruction and memory are
as before. -/
theorem Compute_absent_operand_fatal (instruction : Instruction) (mem : Memory)
    (h : instruction.instr_msg.phy_instr_operand = none) :
    (WriteBlobByCallback.Compute instruction mem).status = .fatal .CHECK_operand ∧
    (WriteBlobByCallback.Compute instruction mem).trace = [.CHECK_operand] ∧
    Event.dynamic_cast ∉ (WriteBlobByCallback.Compute instruction mem).trace ∧
    Event.device_ctx_get ∉ (WriteBlobByCallback.Compute instruction mem).trace ∧
    (WriteBlobByCallback.Compute instruction mem).trace.filter Event.isCallbackCall = [] ∧
    (WriteBlobByCallback.Compute instruction mem).world = mem ∧
    (WriteBlobByCallback.Compute instruction mem).instruction = instruction := by
  obtain ⟨⟨op⟩, stream⟩ := instruction
  simp only at h
  subst h
  refine ⟨rfl, rfl, ?_, ?_, rfl, rfl, rfl⟩ <;> simp [WriteBlobByCallback.Compute]

/-- Witness of C2 on `empty_instruction`. -/
theorem Compute_absent_operand_fatal_witness :
    empty_instruction.instr_msg.phy_instr_operand = none ∧
    ((WriteBlobByCallback.Compute empty_instruction sample_memory).status =
        .fatal .CHECK_operand ∧
     (WriteBlobByCallback.Compute empty_instruction sample_memory).trace = [.CHECK_operand] ∧
     Event.dynamic_cast ∉ (WriteBlobByCallback.Compute empty_instruction sample_memory).trace ∧
     Event.device_ctx_get ∉
        (WriteBlobByCallback.Compute empty_instruction sample_memory).trace ∧
     (WriteBlobByCallback.Compute empty_instruction sample_memory).trace.filter
        Event.isCallbackCall = [] ∧
     (WriteBlobByCallback.Compute empty_instruction sample_memory).world = sample_memory ∧
     (WriteBlobByCallback.Compute empty_instruction sample_memory).instruction =
        empty_instruction) :=
  ⟨rfl, Compute_absent_operand_fatal empty_instruction sample_memory rfl⟩

/-- C3: on an instruction whose operand is present but not of the
write-blob-by-callback shape, `Compute` fails fatally at the null check of the
downcast result, right after the presence check and the downcast: the device context
is not read, no accessor is constructed, no callback is invoked; instruction and
memory are as before. -/
theorem Compute_wrong_shape_fatal (instruction : Instruction) (mem : Memory)
    (other : PhyInstrOperand)
    (h : instruction.instr_msg.phy_instr_operand = some other)
    (hshape : ∀ operand : WriteBlobArgCbPhyInstrOperand, other ≠ .WriteBlobArgCb operand) :
    (WriteBlobByCallback.Compute instruction mem).status = .fatal .CHECK_NOTNULL ∧
    (WriteBlobByCallback.Compute instruction mem).trace =
      [.CHECK_operand, .dynamic_cast, .CHECK_NOTNULL] ∧
    (WriteBlobByCallback.Compute instruction mem).trace.filter Event.isOfBlobCtor = [] ∧
    (WriteBlobByCallback.Compute instruction mem).trace.filter Event.isCallbackCall = [] ∧
    (WriteBlobByCallback.Compute instruction mem).world = mem ∧
    (WriteBlobByCallback.Compute instruction mem).instruction = instruction := by
  obtain ⟨⟨op⟩, stream⟩ := instruction
  simp only at h
  subst h
  cases other with
  | WriteBlobArgCb operand => exact absurd rfl (hshape operand)
  | other tag => exact ⟨rfl, rfl, rfl, rfl, rfl, rfl⟩

/-- Witness of C3 on `misshaped_instruction`. -/
theorem Compute_wrong_shape_fatal_witness :
    (misshaped_instruction.instr_msg.phy_instr_operand = some (.other 5) ∧
     ∀ operand : WriteBlobArgCbPhyInstrOperand,
        PhyInstrOperand.other 5 ≠ .WriteBlobArgCb operand) ∧
    ((WriteBlobByCallback.Compute misshaped_instruction sample_memory).status =
        .fatal .CHECK_NOTNULL ∧
     (WriteBlobByCallback.Compute misshaped_instruction sample_memory).trace =
        [.CHECK_operand, .dynamic_cast, .CHECK_NOTNULL] ∧
     (WriteBlobByCallback.Compute misshaped_instruction sample_memory).trace.filter
        Event.isOfBlobCtor = [] ∧
     (WriteBlobByCallback.Compute misshaped_instruction sample_memory).trace.filter
        Event.isCallbackCall = [] ∧
     (WriteBlobByCallback.Compute misshaped_instruction sample_memory).world = sample_memory ∧
     (WriteBlobByCallback.Compute misshaped_instruction sample_memory).instruction =
        misshaped_instruction) :=
  ⟨⟨rfl, fun _ hne => PhyInstrOperand.noConfusion hne⟩,
    Compute_wrong_shape_fatal misshaped_instruction sample_memory (.other 5) rfl
      (fun _ hne => PhyInstrOperand.noConfusion hne)⟩

/-- C4: for every instruction, whatever its operand, `Infer` completes, executes no
observable statement (so no callback invocation), and returns the instruction and
the memory it was given. -/
theorem Infer_is_noop (instruction : Instruction) (mem : Memory) :
    (WriteBlobByCallback.Infer instruction mem).status = .completed ∧
    (WriteBlobByCallback.Infer instruction mem).trace = [] ∧
    (WriteBlobByCallback.Infer instruction mem).instruction = instruction ∧
    (WriteBlobByCallback.Infer instruction mem).world = mem :=
  ⟨rfl, rfl, rfl, rfl⟩

/-- C5: on an instruction with an operand of the write-blob-by-callback shape,
whatever its callback (empty, returning or throwing), `Compute` leaves the
instruction unchanged (operand, blob reference, callback and the stream's device
context), the final memory is exactly what the callback made of the initial memory,
the accessor is destroyed as the last statement, and when the callback changes
nothing the final memory is the initial memory. -/
theorem Compute_frame (instruction : Instruction) (mem : Memory)
    (operand : WriteBlobArgCbPhyInstrOperand)
    (h : instruction.instr_msg.phy_instr_operand = some (.WriteBlobArgCb operand)) :
    (WriteBlobByCallback.Compute instruction mem).instruction = instruction ∧
    (WriteBlobByCallback.Compute instruction mem).world =
      callback_effect operand.callback
        ⟨⟨instruction.stream.device_ctx, operand.eager_blob_object.mut_blob⟩⟩ mem ∧
    (WriteBlobByCallback.Compute instruction mem).trace.getLast? =
      some (.OfBlob_dtor
        ⟨instruction.stream.device_ctx, operand.eager_blob_object.mut_blob⟩) ∧
    ((∀ handle m, callback_effect operand.callback handle m = m) →
      (WriteBlobByCallback.Compute instruction mem).world = mem) := by
  obtain ⟨⟨op⟩, stream⟩ := instruction
  obtain ⟨ebo, cb⟩ := operand
  simp only at h
  subst h
  have hworld : (WriteBlobByCallback.Compute
        ⟨⟨some (.WriteBlobArgCb ⟨ebo, cb⟩)⟩, stream⟩ mem).world =
      callback_effect cb ⟨⟨stream.device_ctx, ebo.mut_blob⟩⟩ mem := by
    cases cb with
    | none => rfl
    | some target =>
      simp only [WriteBlobByCallback.Compute, dynamic_cast_WriteBlobArgCbPhyInstrOperand,
        reinterpret_cast_uint64, callback_effect]
      cases target ⟨⟨stream.device_ctx, ebo.mut_blob⟩⟩ mem <;> rfl
  refine ⟨?_, hworld, ?_, fun hid => by rw [hworld]; exact hid _ _⟩
  · cases cb with
    | none => rfl
    | some target =>
      simp only [WriteBlobByCallback.Compute, dynamic_cast_WriteBlobArgCbPhyInstrOperand,
        reinterpret_cast_uint64]
      cases target ⟨⟨stream.device_ctx, ebo.mut_blob⟩⟩ mem <;> rfl
  · cases cb with
    | none => rfl
    | some target =>
      simp only [WriteBlobByCallback.Compute, dynamic_cast_WriteBlobArgCbPhyInstrOperand,
        reinterpret_cast_uint64]
      cases target ⟨⟨stream.device_ctx, ebo.mut_blob⟩⟩ mem <;> rfl

/-- Witness of C5 on `reading_instruction`, whose callback only reads: the memory
after `Compute` is the memory before it. -/
theorem Compute_frame_witness :
    reading_instruction.instr_msg.phy_instr_operand =
      some (.WriteBlobArgCb reading_operand) ∧
    ((WriteBlobByCallback.Compute reading_instruction sample_memory).instruction =
        reading_instruction ∧
     (WriteBlobByCallback.Compute reading_instruction sample_memory).world =
        callback_effect reading_operand.callback ⟨⟨7, 0⟩⟩ sample_memory ∧
     (WriteBlobByCallback.Compute reading_instruction sample_memory).trace.getLast? =
        some (.OfBlob_dtor ⟨7, 0⟩) ∧
     ((∀ handle m, callback_effect reading_operand.callback handle m = m) →
        (WriteBlobByCallback.Compute reading_instruction sample_memory).world =
          sample_memory)) ∧
    (WriteBlobByCallback.Compute reading_instruction sample_memory).world = sample_memory :=
  ⟨rfl, Compute_frame reading_instruction sample_memory reading_operand rfl,
    (Compute_frame reading_instruction sample_memory reading_operand rfl).2.2.2
      (fun _ _ => rfl)⟩

/-! ## Theorems: stream-type binding and the cpu specializations -/

/-- C9: the three registered kinds are each bound to one stream type, a constant of
the class: "WriteBlobByCallback" to the host stream type, "cpu.WriteBlobByCallback"
and "cpu.LazyReference" to the CPU stream type; the three names are distinct, and
the two write-by-callback entries differ in name and in stream type. -/
theorem registered_kinds_stream_type :
    COMMANDS.map (fun c => (c.1, c.2.stream_type)) =
      [ ("WriteBlobByCallback", StreamType.HostStreamType),
        ("cpu.LazyReference", StreamType.CpuStreamType),
        ("cpu.WriteBlobByCallback", StreamType.CpuStreamType) ] ∧
    (COMMANDS.map (fun c => c.1)).Nodup ∧
    COMMANDS.stream_type_of "WriteBlobByCallback" = some .HostStreamType ∧
    COMMANDS.stream_type_of "cpu.WriteBlobByCallback" = some .CpuStreamType ∧
    COMMANDS.stream_type_of "cpu.LazyReference" = some .CpuStreamType ∧
    WriteBlobByCallback.stream_type = .HostStreamType ∧
    CpuWriteBlobByCallbackInstructionType.stream_type = .CpuStreamType ∧
    CpuLazyReferenceInstructionType.stream_type = .CpuStreamType ∧
    "WriteBlobByCallback" ≠ "cpu.WriteBlobByCallback" ∧
    COMMANDS.stream_type_of "WriteBlobByCallback" ≠
      COMMANDS.stream_type_of "cpu.WriteBlobByCallback" := by
  refine ⟨rfl, by decide, by decide, by decide, by decide, rfl, rfl, rfl, by decide, by decide⟩

/-- C10: whatever the base classes do, `Infer` and `Compute` of
`CpuLazyReferenceInstructionType` are those of `LazyReferenceInstructionType`, and
`Infer` and `Compute` of `CpuWriteBlobByCallbackInstructionType` are those of
`WriteBlobByCallbackInstructionType`, on every instruction and state; what each
specialization declares is its stream type, the CPU one. -/
theorem cpu_specializations_inherit {World : Type}
    (LazyReferenceInstructionType WriteBlobByCallbackInstructionType : InstructionType World)
    (instruction : Instruction) (world : World) :
    (CpuLazyReferenceInstructionType LazyReferenceInstructionType).Compute instruction world =
      LazyReferenceInstructionType.Compute instruction world ∧
    (CpuLazyReferenceInstructionType LazyReferenceInstructionType).Infer instruction world =
      LazyReferenceInstructionType.Infer instruction world ∧
    (CpuWriteBlobByCallbackInstructionType WriteBlobByCallbackInstructionType).Compute
        instruction world =
      WriteBlobByCallbackInstructionType.Compute instruction world ∧
    (CpuWriteBlobByCallbackInstructionType WriteBlobByCallbackInstructionType).Infer
        instruction world =
      WriteBlobByCallbackInstructionType.Infer instruction world ∧
    CpuLazyReferenceInstructionType.stream_type = .CpuStreamType ∧
    CpuWriteBlobByCallbackInstructionType.stream_type = .CpuStreamType :=
  ⟨rfl, rfl, rfl, rfl, rfl, rfl⟩

/-! ## Theorems: the registry -/

/-- A name that is not among the registered names is not found. -/
theorem find_name_none (r : Registry) (name : String) (h : name ∉ r.names) :
    r.find? (fun d => d.name == name) = none := by
  rw [List.find?_eq_none]
  intro d hd hname
  apply h
  have : d.name = name := by simpa using hname
  rw [← this]
  exact List.mem_map_of_mem _ hd

/-- A registered name is found, and the descriptor found carries that name. -/
theorem find_name_some (r : Registry) (name : String) (h : name ∈ r.names) :
    ∃ d, d ∈ r ∧ d.name = name ∧ r.find? (fun d => d.name == name) = some d := by
  cases hf : r.find? (fun d => d.name == name) with
  | none =>
    rw [List.find?_eq_none] at hf
    obtain ⟨d, hd, hname⟩ := List.mem_map.mp h
    exact absurd (by simpa using hname) (hf d hd)
  | some d =>
    refine ⟨d, List.mem_of_find?_eq_some hf, ?_, rfl⟩
    simpa using List.find?_some hf

/-- C6: for every registry and every name not yet registered in it, `register`
succeeds, a `lookup` of the name in the resulting registry returns the descriptor
just made from the behaviour, and a `lookup` of any other name returns what it
returned before. -/
theorem register_then_lookup (r : Registry) (name : String) (behavior : Behavior)
    (h : name ∉ r.names) :
    (register r name behavior).fatal = false ∧
    lookup (register r name behavior).registry name =
      .found { name := name
               required_stream_category := behavior.required_stream_category
               singleton_behavior := behavior } ∧
    ∀ other : String, other ≠ name →
      lookup (register r name behavior).registry other = lookup r other := by
  have hreg : register r name behavior =
      { fatal := false
        registry := r ++ [{ name := name
                            required_stream_category := behavior.required_stream_category
                            singleton_behavior := behavior }] } := by
    simp [register, h]
  rw [hreg]
  refine ⟨rfl, ?_, ?_⟩
  · simp [lookup, List.find?_append, find_name_none r name h]
  · intro other hne
    have hne2 : ¬ name = other := fun e => hne e.symm
    simp [lookup, List.find?_append, hne2]

/-- Witness of C6: registering "cpu.Echo" in `echo_registry`. -/
theorem register_then_lookup_witness :
    "cpu.Echo" ∉ echo_registry.names ∧
    ((register echo_registry "cpu.Echo" ⟨.CpuStreamType, 11⟩).fatal = false ∧
     lookup (register echo_registry "cpu.Echo" ⟨.CpuStreamType, 11⟩).registry "cpu.Echo" =
       .found { name := "cpu.Echo"
                required_stream_category := .CpuStreamType
                singleton_behavior := ⟨.CpuStreamType, 11⟩ } ∧
     ∀ other : String, other ≠ "cpu.Echo" →
       lookup (register echo_registry "cpu.Echo" ⟨.CpuStreamType, 11⟩).registry other =
         lookup echo_registry other) :=
  ⟨by decide, register_then_lookup echo_registry "cpu.Echo" ⟨.CpuStreamType, 11⟩ (by decide)⟩

/-- C7: for every registry in which a name is already registered, registering that
name again fails fatally and leaves the registry as it was; the descriptor registered
first is still in the registry and a `lookup` of the name, before and after the failed
call, resolves to it. -/
theorem register_twice_fatal (r : Registry) (name : String) (behavior : Behavior)
    (h : name ∈ r.names) :
    (register r name behavior).fatal = true ∧
    (register r name behavior).registry = r ∧
    ∃ first, first ∈ r ∧ first.name = name ∧
      lookup r name = .found first ∧
      lookup (register r name behavior).registry name = .found first := by
  have hreg : register r name behavior = { fatal := true, registry := r } := by
    simp [register, h]
  rw [hreg]
  obtain ⟨d, hd, hname, hfind⟩ := find_name_some r name h
  refine ⟨rfl, rfl, d, hd, hname, ?_, ?_⟩ <;> simp [lookup, hfind]

/-- Witness of C7: registering "host.Echo" a second time, with another behaviour. -/
theorem register_twice_fatal_witness :
    "host.Echo" ∈ echo_registry.names ∧
    ((register echo_registry "host.Echo" ⟨.CpuStreamType, 12⟩).fatal = true ∧
     (register echo_registry "host.Echo" ⟨.CpuStreamType, 12⟩).registry = echo_registry ∧
     ∃ first, first ∈ echo_registry ∧ first.name = "host.Echo" ∧
       lookup echo_registry "host.Echo" = .found first ∧
       lookup (register echo_registry "host.Echo" ⟨.CpuStreamType, 12⟩).registry
         "host.Echo" = .found first) ∧
    lookup (register echo_registry "host.Echo" ⟨.CpuStreamType, 12⟩).registry "host.Echo" =
      .found { name := "host.Echo"
               required_stream_category := .HostStreamType
               singleton_behavior := ⟨.HostStreamType, 10⟩ } :=
  ⟨by decide, register_twice_fatal echo_registry "host.Echo" ⟨.CpuStreamType, 12⟩ (by decide),
    by decide⟩

/-- The names of a registry built by registrations none of which failed are the
names it had before followed by the names registered, in order. -/
theorem register_all_names (calls : List (String × Behavior)) :
    ∀ r : Registry, (register_all r calls).fatal = false →
      (register_all r calls).registry.names = r.names ++ calls.map (fun c => c.1) := by
  induction calls with
  | nil => intro r _; simp [register_all]
  | cons call calls ih =>
    intro r h
    by_cases hmem : call.1 ∈ r.names
    · simp [register_all, register, hmem] at h
    · have hreg : register r call.1 call.2 =
          { fatal := false
            registry := r ++ [{ name := call.1
                                required_stream_category := call.2.required_stream_category
                                singleton_behavior := call.2 }] } := by
        simp [register, hmem]
      simp only [register_all, hreg] at h ⊢
      simp only [Bool.false_eq_true, if_false] at h ⊢
      rw [ih _ h]
      simp [Registry.names]

/-- The three registrations of the two files succeed at process start, and each name
then resolves to a descriptor with the stream type of its class. -/
theorem static_initialization_lookup :
    static_initialization.fatal = false ∧
    lookup static_initialization.registry "WriteBlobByCallback" =
      .found ⟨"WriteBlobByCallback", .HostStreamType, ⟨.HostStreamType, 0⟩⟩ ∧
    lookup static_initialization.registry "cpu.LazyReference" =
      .found ⟨"cpu.LazyReference", .CpuStreamType, ⟨.CpuStreamType, 1⟩⟩ ∧
    lookup static_initialization.registry "cpu.WriteBlobByCallback" =
      .found ⟨"cpu.WriteBlobByCallback", .CpuStreamType, ⟨.CpuStreamType, 2⟩⟩ := by
  decide

/-- C8: for every registry and every name not registered in it, `lookup` fails
fatally; `lookup` returns a descriptor exactly for the registered names; and in a
registry built from the empty one by registrations none of which failed, those are
exactly the names of the registrations made. -/
theorem lookup_unregistered_fatal (r : Registry) (name : String) :
    (name ∉ r.names → lookup r name = .fatal) ∧
    ((∃ d, lookup r name = .found d) ↔ name ∈ r.names) ∧
    (∀ calls : List (String × Behavior), (register_all [] calls).fatal = false →
      ((∃ d, lookup (register_all [] calls).registry name = .found d) ↔
        name ∈ calls.map (fun c => c.1))) := by
  have hnone : ∀ q : Registry, name ∉ q.names → lookup q name = .fatal := by
    intro q h
    simp [lookup, find_name_none q name h]
  have hiff : ∀ q : Registry, (∃ d, lookup q name = .found d) ↔ name ∈ q.names := by
    intro q
    constructor
    · rintro ⟨d, hd⟩
      by_contra hn
      rw [hnone q hn] at hd
      exact LookupOutcome.noConfusion hd
    · intro h
      obtain ⟨d, _, _, hfind⟩ := find_name_some q name h
      exact ⟨d, by simp [lookup, hfind]⟩
  refine ⟨hnone r, hiff r, ?_⟩
  intro calls hok
  rw [hiff, register_all_names calls [] hok]
  simp [Registry.names]

/-- Witness of C8: "host.DoesNotExist" was never registered in `echo_registry`, so
its lookup is fatal, while "host.Echo" resolves. -/
theorem lookup_unregistered_fatal_witness :
    "host.DoesNotExist" ∉ echo_registry.names ∧
    lookup echo_registry "host.DoesNotExist" = .fatal ∧
    lookup echo_registry "host.Echo" =
      .found ⟨"host.Echo", .HostStreamType, ⟨.HostStreamType, 10⟩⟩ :=
  ⟨by decide, (lookup_unregistered_fatal echo_registry "host.DoesNotExist").1 (by decide),
    by decide⟩

end oneflow
